import Mathlib

/-!
Shallow embedding of `src/server.py` (ComPNG): batch PNG compression
endpoints `/compress-analyze`, `/compress-file`, `/compress-zip` built on an
external `pngquant` invocation wrapped by `run_pngquant_safe`.

Modelling conventions:
* a byte payload is a `List Nat`; a filename is a `List Char`;
* the external `pngquant` process is an oracle: each invocation's observable
  outcome is a `ToolRun` (whether `subprocess.check_output` raised — which
  covers non-zero exit — whether the output path exists afterwards, and the
  bytes found at the output path);
* Python exceptions (`HTTPException`, all status 400 here) become
  `Except ReqError`; the first component of each endpoint's result is the
  trace of item indices for which the external tool was invoked, recording
  side effects that happen even when the request later aborts;
* Python's float `round(x, 2)` is modelled over `ℚ` by `pyRound2` using
  Mathlib's `round` (the spec accepts either half-to-even or
  half-away-from-zero tie-breaking; no claim below hinges on a tie).
-/

namespace ComPNG

/-- Python `str.lower` restricted to one character, modelled on ASCII
(sufficient for the `.png` / `.PNG` / `.Png` extension checks). -/
def pyLowerChar (c : Char) : Char :=
  if 'A' ≤ c ∧ c ≤ 'Z' then Char.ofNat (c.toNat + 32) else c

/-- Python `str.lower`, character-wise over the filename. -/
def pyLower (s : List Char) : List Char := s.map pyLowerChar

/-- The accepted extension, `".png"`. -/
def pngExt : List Char := ['.', 'p', 'n', 'g']

/-- `file.filename.lower().endswith(".png")` from lines 104, 151 and 201 of
`server.py`. -/
def validExt (name : List Char) : Bool := pngExt.isSuffixOf (pyLower name)

/-- One uploaded file: its filename and its byte payload (`await file.read()`). -/
structure UploadItem where
  filename : List Char
  bytes : List Nat
deriving DecidableEq, Repr

/-- Observable outcome of one external `pngquant` invocation:
`raises` — `subprocess.check_output` raised (non-zero exit via
`CalledProcessError`, or any other exception); `outputExists` —
`os.path.exists(output_file)` afterwards; `outputBytes` — the bytes at the
output path when it exists. -/
structure ToolRun where
  raises : Bool
  outputExists : Bool
  outputBytes : List Nat
deriving DecidableEq, Repr

/-- `run_pngquant_safe` (`server.py` lines 51–76): returns `True` when the
subprocess call did not raise and the output file exists; every exception is
caught and yields `False`. No size or emptiness check is made. -/
def run_pngquant_safe (r : ToolRun) : Bool :=
  if r.raises then false else r.outputExists

/-- The bytes served for one item: `final_path = output_path if compressed
else input_path` (lines 119–122, 169, 216). -/
def winningBytes (f : UploadItem) (r : ToolRun) : List Nat :=
  if run_pngquant_safe r then r.outputBytes else f.bytes

/-- Python `round(q, 2)` over `ℚ`. Mathlib's `round` is half-away-from-zero
for nonnegative arguments; the spec (§4.3) accepts this tie-breaking. -/
def pyRound2 (q : ℚ) : ℚ := (round (q * 100) : ℤ) / 100

/-- One stats object (lines 133–139 / 229–235): exactly the keys `filename`,
`original_size`, `final_size`, `percent_reduction`, `used_compressed`. -/
structure ItemStats where
  filename : List Char
  original_size : Nat
  final_size : Nat
  percent_reduction : ℚ
  used_compressed : Bool
deriving DecidableEq, Repr

/-- Per-item processing shared by `/compress-analyze` and `/compress-zip`
(lines 117–139, 214–235): run the tool, pick the final path, compute sizes
and the rounded reduction. Call sites guarantee `f.bytes ≠ []`, so the
division is never by zero there. -/
def processItem (f : UploadItem) (r : ToolRun) : ItemStats :=
  let compressed := run_pngquant_safe r
  let finalBytes := if compressed then r.outputBytes else f.bytes
  { filename := f.filename
    original_size := f.bytes.length
    final_size := finalBytes.length
    percent_reduction :=
      if compressed then
        pyRound2 (((f.bytes.length : ℚ) - (finalBytes.length : ℚ)) * 100
          / (f.bytes.length : ℚ))
      else 0
    used_compressed := compressed }

/-- The `HTTPException(status_code=400, ...)` cases raised by the endpoints:
`emptyBatch` = "At least one PNG required", `tooMany` = "Max 10 files
allowed", `badExt` = "Only PNG allowed", `emptyPayload` = "Empty PNG file".
All are client errors (HTTP 400). -/
inductive ReqError where
  | emptyBatch
  | tooMany
  | badExt
  | emptyPayload
deriving DecidableEq, Repr

/-- Loop body of `/compress-analyze` (lines 103–139): per item, extension
check, then emptiness check, then the tool invocation. `idx` is the
`enumerate` index. The first component is the trace of indices at which
`run_pngquant_safe` was invoked; an `HTTPException` discards accumulated
results, hence the `.error` outcome carries none. -/
def analyzeLoop (oracle : Nat → ToolRun) :
    Nat → List UploadItem → List Nat × Except ReqError (List ItemStats)
  | _, [] => ([], .ok [])
  | idx, f :: rest =>
    if !(validExt f.filename) then ([], .error .badExt)
    else if f.bytes.isEmpty then ([], .error .emptyPayload)
    else
      let step := analyzeLoop oracle (idx + 1) rest
      (idx :: step.1, step.2.map (fun l => processItem f (oracle idx) :: l))

/-- `/compress-analyze` (lines 90–141): batch-size checks, then the loop.
The returned trace lists the item indices for which the external tool ran. -/
def compress_analyze (oracle : Nat → ToolRun) (files : List UploadItem) :
    List Nat × Except ReqError (List ItemStats) :=
  if files.isEmpty then ([], .error .emptyBatch)
  else if 10 < files.length then ([], .error .tooMany)
  else analyzeLoop oracle 0 files

/-- Loop body of `/compress-zip` (lines 200–235): per item, extension check
(`HTTPException` aborts everything, the partly-written archive is deleted in
`finally`), then `if not raw_bytes: continue` silently skips the item, else
the tool runs, the winning bytes are written to the archive under
`file.filename` and a stats object is appended. -/
def zipLoop (oracle : Nat → ToolRun) :
    Nat → List UploadItem →
      List Nat × Except ReqError (List (List Char × List Nat) × List ItemStats)
  | _, [] => ([], .ok ([], []))
  | idx, f :: rest =>
    if !(validExt f.filename) then ([], .error .badExt)
    else if f.bytes.isEmpty then zipLoop oracle (idx + 1) rest
    else
      let step := zipLoop oracle (idx + 1) rest
      (idx :: step.1,
        step.2.map (fun p =>
          ((f.filename, winningBytes f (oracle idx)) :: p.1,
            processItem f (oracle idx) :: p.2)))

/-- `/compress-zip` (lines 184–244): batch-size checks, then the loop; on
success the response is the archive (entry list, in order) plus the stats
array placed in the `X-Compression-Stats` header. -/
def compress_zip (oracle : Nat → ToolRun) (files : List UploadItem) :
    List Nat × Except ReqError (List (List Char × List Nat) × List ItemStats) :=
  if files.isEmpty then ([], .error .emptyBatch)
  else if 10 < files.length then ([], .error .tooMany)
  else zipLoop oracle 0 files

/-- `/compress-file` (lines 147–178): single upload; extension check, read,
emptiness check, one tool run, and a `FileResponse` of the winning bytes
delivered under the upload's own filename. -/
def compress_file (r : ToolRun) (f : UploadItem) :
    Except ReqError (List Char × List Nat) :=
  if !(validExt f.filename) then .error .badExt
  else if f.bytes.isEmpty then .error .emptyPayload
  else .ok (f.filename, winningBytes f r)

/-! ### Helper lemmas -/

theorem processItem_filename (f : UploadItem) (r : ToolRun) :
    (processItem f r).filename = f.filename := rfl

theorem pyLower_append (a b : List Char) :
    pyLower (a ++ b) = pyLower a ++ pyLower b := List.map_append _ a b

theorem pyRound2_nonneg (q : ℚ) (h : 0 ≤ q) : 0 ≤ pyRound2 q := by
  unfold pyRound2
  have h1 : 0 ≤ round (q * 100) := by
    rw [round_eq]
    exact Int.floor_nonneg.mpr (by linarith)
  have h2 : (0 : ℚ) ≤ (round (q * 100) : ℤ) := by exact_mod_cast h1
  linarith [div_nonneg h2 (by norm_num : (0:ℚ) ≤ 100)]

theorem analyzeLoop_eq (oracle : Nat → ToolRun) (files : List UploadItem) :
    ∀ idx, (∀ f ∈ files, validExt f.filename = true ∧ f.bytes.isEmpty = false) →
      analyzeLoop oracle idx files =
        ((files.enumFrom idx).map Prod.fst,
          .ok ((files.enumFrom idx).map (fun p => processItem p.2 (oracle p.1)))) := by
  induction files with
  | nil => intro idx _; simp [analyzeLoop]
  | cons f rest ih =>
    intro idx h
    have h1 : validExt f.filename = true := (h f (List.mem_cons_self f rest)).1
    have h2 : f.bytes.isEmpty = false := (h f (List.mem_cons_self f rest)).2
    have hr := ih (idx + 1) (fun g hg => h g (List.mem_cons_of_mem f hg))
    simp [analyzeLoop, h1, h2, hr, Except.map]

theorem zipLoop_eq (oracle : Nat → ToolRun) (files : List UploadItem) :
    ∀ idx, (∀ f ∈ files, validExt f.filename = true) →
      zipLoop oracle idx files =
        (((files.enumFrom idx).filter (fun p => !p.2.bytes.isEmpty)).map Prod.fst,
          .ok
            (((files.enumFrom idx).filter (fun p => !p.2.bytes.isEmpty)).map
                (fun p => (p.2.filename, winningBytes p.2 (oracle p.1))),
              ((files.enumFrom idx).filter (fun p => !p.2.bytes.isEmpty)).map
                (fun p => processItem p.2 (oracle p.1)))) := by
  induction files with
  | nil => intro idx _; simp [zipLoop]
  | cons f rest ih =>
    intro idx h
    have h1 : validExt f.filename = true := h f (List.mem_cons_self f rest)
    have hr := ih (idx + 1) (fun g hg => h g (List.mem_cons_of_mem f hg))
    by_cases hb : f.bytes.isEmpty <;>
      simp [zipLoop, h1, hb, hr, List.filter_cons, Except.map]

theorem map_snd_filter_enumFrom {α : Type} (p : α → Bool) (l : List α) :
    ∀ n, ((l.enumFrom n).filter (fun x => p x.2)).map Prod.snd = l.filter p := by
  induction l with
  | nil => intro n; simp
  | cons a rest ih =>
    intro n
    by_cases hp : p a <;> simp [List.filter_cons, hp, ih]

/-! ### Claim theorems -/

/-- Claim C10 (confirmed): the extension check is case-insensitive — a
filename is accepted exactly when its lowercased form ends with `.png`, so
`.PNG` and `.Png` endings pass identically to `.png`. -/
theorem c10_ext_case_insensitive :
    ∀ stem : List Char,
      validExt (stem ++ ['.', 'P', 'N', 'G']) = true ∧
      validExt (stem ++ ['.', 'P', 'n', 'g']) = true ∧
      validExt (stem ++ ['.', 'p', 'n', 'g']) = true ∧
      (∀ name : List Char, validExt name = true ↔ pngExt <:+ pyLower name) := by
  intro stem
  have key : ∀ suffix : List Char, pyLower suffix = pngExt →
      validExt (stem ++ suffix) = true := by
    intro suffix hs
    have : pyLower (stem ++ suffix) = pyLower stem ++ pngExt := by
      rw [pyLower_append, hs]
    simp only [validExt, this, List.isSuffixOf_iff_suffix]
    exact List.suffix_append _ _
  refine ⟨key _ (by decide), key _ (by decide), key _ (by decide), ?_⟩
  intro name
  simp [validExt, List.isSuffixOf_iff_suffix]

/-- Claim C5 counterexample: `run_pngquant_safe` reports success when the
process did not raise and the output file exists but is EMPTY — the claim
says a non-empty output is required for success. -/
theorem c5_counterexample :
    run_pngquant_safe ⟨false, true, []⟩ = true ∧
    (⟨false, true, []⟩ : ToolRun).outputBytes.isEmpty = true := by
  exact ⟨rfl, rfl⟩

/-- Claim C5 (corrected): the attempt reports success iff the subprocess
call raised no exception (covering exit code 0) and the output path exists;
non-emptiness of the output is not checked, and every raising outcome
(non-zero exit, timeout, anything else) is reported as failure. -/
theorem c5_amended :
    ∀ r : ToolRun,
      run_pngquant_safe r = true ↔ (r.raises = false ∧ r.outputExists = true) := by
  intro r
  cases r with
  | mk raises outputExists outputBytes =>
    cases raises <;> cases outputExists <;> simp [run_pngquant_safe]

/-- Claim C1 counterexample: the tool succeeds with a 3-byte output on a
2-byte original; the code keeps the tool output (no size comparison), so
`used_compressed = true` while `final_size (3) > original_size (2)` and the
winning bytes are not the original — refuting the strictly-smaller /
tie-favors-original policy and the `used_compressed ↔ final < original`
equivalence. -/
theorem c1_counterexample :
    (processItem ⟨['a', '.', 'p', 'n', 'g'], [0, 0]⟩
        ⟨false, true, [0, 0, 0]⟩).used_compressed = true ∧
    (processItem ⟨['a', '.', 'p', 'n', 'g'], [0, 0]⟩
        ⟨false, true, [0, 0, 0]⟩).original_size = 2 ∧
    (processItem ⟨['a', '.', 'p', 'n', 'g'], [0, 0]⟩
        ⟨false, true, [0, 0, 0]⟩).final_size = 3 ∧
    winningBytes ⟨['a', '.', 'p', 'n', 'g'], [0, 0]⟩
        ⟨false, true, [0, 0, 0]⟩ ≠ [0, 0] := by
  refine ⟨rfl, rfl, rfl, by decide⟩

/-- Claim C1 (corrected): whenever the compression attempt succeeds, the
winning bytes are the tool's output bytes unconditionally — no size
comparison is made — so `used_compressed` is true even when the output is at
least as large as the original, and `final_size` equals the output's size
(possibly exceeding `original_size`). -/
theorem c1_amended :
    ∀ (f : UploadItem) (r : ToolRun), run_pngquant_safe r = true →
      winningBytes f r = r.outputBytes ∧
      (processItem f r).used_compressed = true ∧
      (processItem f r).final_size = r.outputBytes.length ∧
      (processItem f r).original_size = f.bytes.length := by
  intro f r h
  refine ⟨?_, ?_, ?_, rfl⟩ <;> simp [winningBytes, processItem, h]

/-- Witness for `c1_amended` at a concrete successful run. -/
theorem c1_amended_witness :
    winningBytes ⟨['a', '.', 'p', 'n', 'g'], [0, 0]⟩ ⟨false, true, [7]⟩ =
        (⟨false, true, [7]⟩ : ToolRun).outputBytes ∧
    (processItem ⟨['a', '.', 'p', 'n', 'g'], [0, 0]⟩
        ⟨false, true, [7]⟩).used_compressed = true ∧
    (processItem ⟨['a', '.', 'p', 'n', 'g'], [0, 0]⟩
        ⟨false, true, [7]⟩).final_size =
      (⟨false, true, [7]⟩ : ToolRun).outputBytes.length ∧
    (processItem ⟨['a', '.', 'p', 'n', 'g'], [0, 0]⟩
        ⟨false, true, [7]⟩).original_size =
      (⟨['a', '.', 'p', 'n', 'g'], [0, 0]⟩ : UploadItem).bytes.length :=
  c1_amended ⟨['a', '.', 'p', 'n', 'g'], [0, 0]⟩ ⟨false, true, [7]⟩ (by decide)

/-- Claim C2 counterexample: a two-item zip batch whose second item has an
empty payload is NOT rejected — the zip endpoint returns success with an
archive entry and a stats entry for the first item only, refuting "the
entire batch is rejected with a client error ... no partial output". -/
theorem c2_counterexample :
    compress_zip (fun _ => ⟨true, false, []⟩)
        [⟨['a', '.', 'p', 'n', 'g'], [1]⟩, ⟨['b', '.', 'p', 'n', 'g'], []⟩] =
      ([0],
        .ok ([(['a', '.', 'p', 'n', 'g'], [1])],
          [⟨['a', '.', 'p', 'n', 'g'], 1, 1, 0, false⟩])) := rfl

/-- Claim C2 (corrected): in the analyze endpoint an empty-payload item
aborts the whole batch with a client error before the tool is invoked for
that item (or any later one); in the zip endpoint the empty-payload item is
instead silently skipped — no archive entry, no stats entry, no tool
invocation for it — and the batch continues with the remaining items. -/
theorem c2_amended :
    ∀ (oracle : Nat → ToolRun) (idx : Nat) (f : UploadItem)
      (rest : List UploadItem),
      validExt f.filename = true → f.bytes.isEmpty = true →
      analyzeLoop oracle idx (f :: rest) = ([], .error .emptyPayload) ∧
      zipLoop oracle idx (f :: rest) = zipLoop oracle (idx + 1) rest := by
  intro oracle idx f rest h1 h2
  constructor <;> simp [analyzeLoop, zipLoop, h1, h2]

/-- Witness for `c2_amended` at a concrete empty-payload item. -/
theorem c2_amended_witness :
    analyzeLoop (fun _ => ⟨true, false, []⟩) 0
        [⟨['x', '.', 'p', 'n', 'g'], []⟩] = ([], .error .emptyPayload) ∧
    zipLoop (fun _ => ⟨true, false, []⟩) 0
        [⟨['x', '.', 'p', 'n', 'g'], []⟩] =
      zipLoop (fun _ => ⟨true, false, []⟩) 1 [] :=
  c2_amended (fun _ => ⟨true, false, []⟩) 0 ⟨['x', '.', 'p', 'n', 'g'], []⟩ []
    (by decide) (by decide)

/-- Claim C3 counterexample: a batch whose first item is a valid PNG and
whose second item has a non-PNG name is indeed rejected with the
extension error, but the external tool WAS invoked for item 0 (the trace is
`[0]`, not `[]`), refuting "the external compressor is never invoked for any
item of that batch". -/
theorem c3_counterexample :
    compress_analyze (fun _ => ⟨true, false, []⟩)
        [⟨['a', '.', 'p', 'n', 'g'], [1]⟩, ⟨['b', '.', 't', 'x', 't'], [1]⟩] =
      ([0], .error .badExt) ∧
    compress_zip (fun _ => ⟨true, false, []⟩)
        [⟨['a', '.', 'p', 'n', 'g'], [1]⟩, ⟨['b', '.', 't', 'x', 't'], [1]⟩] =
      ([0], .error .badExt) := ⟨rfl, rfl⟩

/-- Claim C3 (corrected): a batch containing an item with a non-accepted
extension is rejected with a client error and no partial output reaches the
caller, but validation is interleaved with processing rather than performed
up front: the external compressor runs for each valid item preceding the
first invalid one (here: none when the bad item comes first, exactly the
first item when the bad item comes second). -/
theorem c3_amended :
    ∀ (oracle : Nat → ToolRun) (idx : Nat) (f g : UploadItem)
      (rest : List UploadItem),
      validExt g.filename = false →
      validExt f.filename = true → f.bytes.isEmpty = false →
      analyzeLoop oracle idx (g :: rest) = ([], .error .badExt) ∧
      zipLoop oracle idx (g :: rest) = ([], .error .badExt) ∧
      analyzeLoop oracle idx (f :: g :: rest) = ([idx], .error .badExt) ∧
      zipLoop oracle idx (f :: g :: rest) = ([idx], .error .badExt) := by
  intro oracle idx f g rest hg h1 h2
  refine ⟨?_, ?_, ?_, ?_⟩ <;>
    simp [analyzeLoop, zipLoop, hg, h1, h2, Except.map]

/-- Witness for `c3_amended` at a concrete valid-then-invalid batch. -/
theorem c3_amended_witness :
    analyzeLoop (fun _ => ⟨true, false, []⟩) 0
        [⟨['b', '.', 't', 'x', 't'], [1]⟩] = ([], .error .badExt) ∧
    zipLoop (fun _ => ⟨true, false, []⟩) 0
        [⟨['b', '.', 't', 'x', 't'], [1]⟩] = ([], .error .badExt) ∧
    analyzeLoop (fun _ => ⟨true, false, []⟩) 0
        [⟨['a', '.', 'p', 'n', 'g'], [1]⟩, ⟨['b', '.', 't', 'x', 't'], [1]⟩] =
      ([0], .error .badExt) ∧
    zipLoop (fun _ => ⟨true, false, []⟩) 0
        [⟨['a', '.', 'p', 'n', 'g'], [1]⟩, ⟨['b', '.', 't', 'x', 't'], [1]⟩] =
      ([0], .error .badExt) :=
  c3_amended (fun _ => ⟨true, false, []⟩) 0 ⟨['a', '.', 'p', 'n', 'g'], [1]⟩
    ⟨['b', '.', 't', 'x', 't'], [1]⟩ [] (by decide) (by decide) (by decide)

/-- Claim C4 counterexample: the tool succeeds, saving exactly 1 byte out of
20001 (output strictly smaller than the original), yet
`round((20001-20000)*100/20001, 2) = round(0.004999..., 2) = 0.0`, so
`percent_reduction` is NOT strictly greater than 0. -/
theorem c4_counterexample :
    (processItem ⟨['a', '.', 'p', 'n', 'g'], List.replicate 20001 0⟩
        ⟨false, true, List.replicate 20000 0⟩).used_compressed = true ∧
    (processItem ⟨['a', '.', 'p', 'n', 'g'], List.replicate 20001 0⟩
        ⟨false, true, List.replicate 20000 0⟩).final_size <
      (processItem ⟨['a', '.', 'p', 'n', 'g'], List.replicate 20001 0⟩
        ⟨false, true, List.replicate 20000 0⟩).original_size ∧
    (processItem ⟨['a', '.', 'p', 'n', 'g'], List.replicate 20001 0⟩
        ⟨false, true, List.replicate 20000 0⟩).percent_reduction = 0 := by
  refine ⟨rfl, ?_, ?_⟩
  · show (List.replicate 20000 (0:Nat)).length <
      (List.replicate 20001 (0:Nat)).length
    rw [List.length_replicate, List.length_replicate]
    norm_num
  · have key : ∀ n m : Nat,
        (processItem ⟨['a', '.', 'p', 'n', 'g'], List.replicate n 0⟩
          ⟨false, true, List.replicate m 0⟩).percent_reduction =
        pyRound2 (((n : ℚ) - (m : ℚ)) * 100 / (n : ℚ)) := by
      intro n m
      simp [processItem, run_pngquant_safe, List.length_replicate]
    rw [key]
    have hr : round ((((20001 : ℚ) - 20000) * 100 / 20001) * 100) = 0 := by
      rw [round_eq, Int.floor_eq_zero_iff]
      constructor <;> norm_num
    simp [pyRound2, hr]

/-- Claim C4 (corrected): `percent_reduction` is 0.0 whenever
`used_compressed` is false, and whenever the tool succeeds with output no
larger than the original, `percent_reduction` equals
`round((original_size - final_size) * 100 / original_size, 2)` and is
greater than **or equal to** 0 — it can equal 0.0 for a strict but tiny
improvement (below 0.005 of the original), so "strictly greater than 0"
does not hold in general. -/
theorem c4_amended :
    ∀ (f : UploadItem) (r : ToolRun),
      ((processItem f r).used_compressed = false →
        (processItem f r).percent_reduction = 0) ∧
      (run_pngquant_safe r = true → r.outputBytes.length ≤ f.bytes.length →
        (processItem f r).percent_reduction =
          pyRound2 (((f.bytes.length : ℚ) - (r.outputBytes.length : ℚ)) * 100
            / (f.bytes.length : ℚ)) ∧
        0 ≤ (processItem f r).percent_reduction) := by
  intro f r
  constructor
  · intro hu
    have hrun : run_pngquant_safe r = false := by
      by_contra hc
      have : run_pngquant_safe r = true := by
        cases h : run_pngquant_safe r
        · exact absurd h hc
        · rfl
      simp [processItem, this] at hu
    simp [processItem, hrun]
  · intro hrun hle
    have hq : 0 ≤ ((f.bytes.length : ℚ) - (r.outputBytes.length : ℚ)) * 100
        / (f.bytes.length : ℚ) := by
      apply div_nonneg _ (by positivity)
      have : (r.outputBytes.length : ℚ) ≤ (f.bytes.length : ℚ) := by
        exact_mod_cast hle
      nlinarith
    constructor
    · simp [processItem, hrun]
    · have := pyRound2_nonneg _ hq
      simp only [processItem, hrun]
      simpa using this

/-- Witness for `c4_amended`: a failed run yields reduction 0; a successful
run shrinking 2 bytes to 1 yields the rounded formula value, nonnegative. -/
theorem c4_amended_witness :
    (processItem ⟨['a', '.', 'p', 'n', 'g'], [3, 4]⟩
        ⟨true, false, []⟩).percent_reduction = 0 ∧
    ((processItem ⟨['a', '.', 'p', 'n', 'g'], [3, 4]⟩
          ⟨false, true, [3]⟩).percent_reduction =
        pyRound2 ((((⟨['a', '.', 'p', 'n', 'g'], [3, 4]⟩ :
              UploadItem).bytes.length : ℚ) -
            (((⟨false, true, [3]⟩ : ToolRun).outputBytes.length : ℚ))) * 100
          / ((⟨['a', '.', 'p', 'n', 'g'], [3, 4]⟩ :
              UploadItem).bytes.length : ℚ)) ∧
      0 ≤ (processItem ⟨['a', '.', 'p', 'n', 'g'], [3, 4]⟩
          ⟨false, true, [3]⟩).percent_reduction) :=
  ⟨(c4_amended ⟨['a', '.', 'p', 'n', 'g'], [3, 4]⟩ ⟨true, false, []⟩).1
      (by decide),
    (c4_amended ⟨['a', '.', 'p', 'n', 'g'], [3, 4]⟩ ⟨false, true, [3]⟩).2
      (by decide) (by decide)⟩

/-- Claim C7 (confirmed): the compression attempt absorbs every raising
outcome into `success = false`; a per-item compression failure makes that
item fall back to its original bytes (`used_compressed = false`), and the
zip batch continues processing the remaining items — the failed run is never
surfaced as a request failure. -/
theorem c7_attempt_isolated :
    (∀ r : ToolRun, r.raises = true → run_pngquant_safe r = false) ∧
    (∀ (oracle : Nat → ToolRun) (idx : Nat) (f : UploadItem)
      (rest : List UploadItem),
      validExt f.filename = true → f.bytes.isEmpty = false →
      run_pngquant_safe (oracle idx) = false →
      winningBytes f (oracle idx) = f.bytes ∧
      (processItem f (oracle idx)).used_compressed = false ∧
      zipLoop oracle idx (f :: rest) =
        (idx :: (zipLoop oracle (idx + 1) rest).1,
          ((zipLoop oracle (idx + 1) rest).2).map
            (fun p => ((f.filename, f.bytes) :: p.1,
              processItem f (oracle idx) :: p.2)))) := by
  constructor
  · intro r h
    simp [run_pngquant_safe, h]
  · intro oracle idx f rest h1 h2 h3
    refine ⟨by simp [winningBytes, h3], by simp [processItem, h3], ?_⟩
    simp [zipLoop, h1, h2, winningBytes, h3]

/-- Witness for `c7_attempt_isolated` at a raising run and a one-item tail. -/
theorem c7_attempt_isolated_witness :
    run_pngquant_safe ⟨true, true, [9]⟩ = false ∧
    (winningBytes ⟨['a', '.', 'p', 'n', 'g'], [1]⟩
        ((fun _ => (⟨true, false, []⟩ : ToolRun)) 0) =
      (⟨['a', '.', 'p', 'n', 'g'], [1]⟩ : UploadItem).bytes ∧
    (processItem ⟨['a', '.', 'p', 'n', 'g'], [1]⟩
        ((fun _ => (⟨true, false, []⟩ : ToolRun)) 0)).used_compressed = false ∧
    zipLoop (fun _ => ⟨true, false, []⟩) 0
        [⟨['a', '.', 'p', 'n', 'g'], [1]⟩, ⟨['c', '.', 'p', 'n', 'g'], [2]⟩] =
      (0 :: (zipLoop (fun _ => ⟨true, false, []⟩) 1
          [⟨['c', '.', 'p', 'n', 'g'], [2]⟩]).1,
        ((zipLoop (fun _ => ⟨true, false, []⟩) 1
            [⟨['c', '.', 'p', 'n', 'g'], [2]⟩]).2).map
          (fun p => (((['a', '.', 'p', 'n', 'g'] : List Char), [1]) :: p.1,
            processItem ⟨['a', '.', 'p', 'n', 'g'], [1]⟩
              ((fun _ => (⟨true, false, []⟩ : ToolRun)) 0) :: p.2)))) :=
  ⟨c7_attempt_isolated.1 ⟨true, true, [9]⟩ rfl,
    c7_attempt_isolated.2 (fun _ => ⟨true, false, []⟩) 0
      ⟨['a', '.', 'p', 'n', 'g'], [1]⟩ [⟨['c', '.', 'p', 'n', 'g'], [2]⟩]
      (by decide) (by decide) (by decide)⟩

/-- Claim C8 (confirmed): a zero-item batch is rejected with the
empty-batch client error and a batch of more than 10 items is rejected with
the too-many client error, in both endpoints; in both cases the trace of
tool invocations is empty — the external compressor never runs and no item
is processed. -/
theorem c8_batch_size_checks :
    ∀ (oracle : Nat → ToolRun) (files : List UploadItem),
      (files = [] →
        compress_analyze oracle files = ([], .error .emptyBatch) ∧
        compress_zip oracle files = ([], .error .emptyBatch)) ∧
      (10 < files.length →
        compress_analyze oracle files = ([], .error .tooMany) ∧
        compress_zip oracle files = ([], .error .tooMany)) := by
  intro oracle files
  constructor
  · intro h
    subst h
    exact ⟨rfl, rfl⟩
  · intro h
    have hne : files.isEmpty = false := by
      cases files with
      | nil => simp at h
      | cons a l => rfl
    constructor <;> simp [compress_analyze, compress_zip, hne, h]

/-- Witness for `c8_batch_size_checks` at the empty batch and an 11-item
batch. -/
theorem c8_batch_size_checks_witness :
    (compress_analyze (fun _ => ⟨true, false, []⟩) [] =
        ([], .error .emptyBatch) ∧
      compress_zip (fun _ => ⟨true, false, []⟩) [] =
        ([], .error .emptyBatch)) ∧
    (compress_analyze (fun _ => ⟨true, false, []⟩)
        (List.replicate 11 ⟨['a', '.', 'p', 'n', 'g'], [1]⟩) =
        ([], .error .tooMany) ∧
      compress_zip (fun _ => ⟨true, false, []⟩)
        (List.replicate 11 ⟨['a', '.', 'p', 'n', 'g'], [1]⟩) =
        ([], .error .tooMany)) :=
  ⟨(c8_batch_size_checks (fun _ => ⟨true, false, []⟩) []).1 rfl,
    (c8_batch_size_checks (fun _ => ⟨true, false, []⟩)
        (List.replicate 11 ⟨['a', '.', 'p', 'n', 'g'], [1]⟩)).2
      (by simp)⟩

/-- Claim C6 counterexample: an accepted two-item zip batch whose second
item has an empty payload returns a stats array of length 1, not 2 — the
empty item is skipped, refuting "stats length equals the number of uploaded
items". -/
theorem c6_counterexample :
    compress_zip (fun _ => ⟨true, false, []⟩)
        [⟨['c', '.', 'p', 'n', 'g'], [1, 2]⟩, ⟨['d', '.', 'p', 'n', 'g'], []⟩] =
      ([0],
        .ok ([(['c', '.', 'p', 'n', 'g'], [1, 2])],
          [⟨['c', '.', 'p', 'n', 'g'], 2, 2, 0, false⟩])) ∧
    ([⟨['c', '.', 'p', 'n', 'g'], [1, 2]⟩,
        (⟨['d', '.', 'p', 'n', 'g'], []⟩ : UploadItem)] : List UploadItem).length
      = 2 := ⟨rfl, rfl⟩

/-- Claim C6 (corrected): each stats object carries exactly the five fields
(filename, original_size, final_size, percent_reduction, used_compressed —
the `ItemStats` record); for the analyze endpoint every accepted batch's
stats has one entry per uploaded item in upload order; for the zip endpoint
the stats has one entry per uploaded item with a NON-EMPTY payload, in
upload order — empty-payload items are silently skipped, so the length can
be less than the item count. -/
theorem c6_amended :
    ∀ (oracle : Nat → ToolRun) (files : List UploadItem),
      files ≠ [] → files.length ≤ 10 →
      ((∀ f ∈ files, validExt f.filename = true ∧ f.bytes.isEmpty = false) →
        ∃ stats : List ItemStats,
          (compress_analyze oracle files).2 = .ok stats ∧
          stats.map ItemStats.filename = files.map UploadItem.filename ∧
          stats.length = files.length) ∧
      ((∀ f ∈ files, validExt f.filename = true) →
        ∃ pr : List (List Char × List Nat) × List ItemStats,
          (compress_zip oracle files).2 = .ok pr ∧
          pr.2.map ItemStats.filename =
            (files.filter (fun f => !f.bytes.isEmpty)).map UploadItem.filename ∧
          pr.2.length = (files.filter (fun f => !f.bytes.isEmpty)).length) := by
  intro oracle files hne hlen
  have hne' : files.isEmpty = false := by
    cases files with
    | nil => exact absurd rfl hne
    | cons a l => rfl
  have hlen' : ¬ 10 < files.length := by omega
  constructor
  · intro h
    refine ⟨(files.enumFrom 0).map (fun p => processItem p.2 (oracle p.1)),
      ?_, ?_, ?_⟩
    · simp [compress_analyze, hne', hlen', analyzeLoop_eq oracle files 0 h]
    · rw [List.map_map]
      have : (ItemStats.filename ∘ fun p : Nat × UploadItem =>
          processItem p.2 (oracle p.1)) =
          (UploadItem.filename ∘ Prod.snd) := by
        funext p
        exact processItem_filename p.2 (oracle p.1)
      rw [this, ← List.map_map, List.enumFrom_map_snd]
    · simp [List.length_map, List.enumFrom_length]
  · intro h
    refine ⟨(((files.enumFrom 0).filter (fun p => !p.2.bytes.isEmpty)).map
          (fun p => (p.2.filename, winningBytes p.2 (oracle p.1))),
        ((files.enumFrom 0).filter (fun p => !p.2.bytes.isEmpty)).map
          (fun p => processItem p.2 (oracle p.1))), ?_, ?_, ?_⟩
    · simp [compress_zip, hne', hlen', zipLoop_eq oracle files 0 h]
    · rw [List.map_map]
      have : (ItemStats.filename ∘ fun p : Nat × UploadItem =>
          processItem p.2 (oracle p.1)) =
          (UploadItem.filename ∘ Prod.snd) := by
        funext p
        exact processItem_filename p.2 (oracle p.1)
      rw [this, ← List.map_map,
        map_snd_filter_enumFrom (fun f => !f.bytes.isEmpty) files 0]
    · rw [List.length_map,
        ← List.length_map _ Prod.snd,
        map_snd_filter_enumFrom (fun f => !f.bytes.isEmpty) files 0]

/-- Witness for `c6_amended` at a concrete one-item valid batch. -/
theorem c6_amended_witness :
    (∃ stats : List ItemStats,
      (compress_analyze (fun _ => ⟨true, false, []⟩)
          [⟨['g', '.', 'p', 'n', 'g'], [1]⟩]).2 = .ok stats ∧
      stats.map ItemStats.filename =
        ([⟨['g', '.', 'p', 'n', 'g'], [1]⟩] : List UploadItem).map
          UploadItem.filename ∧
      stats.length =
        ([⟨['g', '.', 'p', 'n', 'g'], [1]⟩] : List UploadItem).length) ∧
    (∃ pr : List (List Char × List Nat) × List ItemStats,
      (compress_zip (fun _ => ⟨true, false, []⟩)
          [⟨['g', '.', 'p', 'n', 'g'], [1]⟩]).2 = .ok pr ∧
      pr.2.map ItemStats.filename =
        (([⟨['g', '.', 'p', 'n', 'g'], [1]⟩] : List UploadItem).filter
            (fun f => !f.bytes.isEmpty)).map UploadItem.filename ∧
      pr.2.length =
        (([⟨['g', '.', 'p', 'n', 'g'], [1]⟩] : List UploadItem).filter
            (fun f => !f.bytes.isEmpty)).length) :=
  ⟨(c6_amended (fun _ => ⟨true, false, []⟩) [⟨['g', '.', 'p', 'n', 'g'], [1]⟩]
      (by decide) (by decide)).1 (by decide),
    (c6_amended (fun _ => ⟨true, false, []⟩) [⟨['g', '.', 'p', 'n', 'g'], [1]⟩]
      (by decide) (by decide)).2 (by decide)⟩

/-- Claim C9 counterexample: an accepted two-item zip batch whose second
item has an empty payload yields an archive with exactly ONE entry, not two
— refuting "an archive with exactly N entries" for N = 2. -/
theorem c9_counterexample :
    compress_zip (fun _ => ⟨true, false, []⟩)
        [⟨['e', '.', 'p', 'n', 'g'], [5]⟩, ⟨['f', '.', 'p', 'n', 'g'], []⟩] =
      ([0],
        .ok ([(['e', '.', 'p', 'n', 'g'], [5])],
          [⟨['e', '.', 'p', 'n', 'g'], 1, 1, 0, false⟩])) ∧
    ([(['e', '.', 'p', 'n', 'g'], [5])] :
        List (List Char × List Nat)).length ≠
      ([⟨['e', '.', 'p', 'n', 'g'], [5]⟩,
          (⟨['f', '.', 'p', 'n', 'g'], []⟩ : UploadItem)] :
        List UploadItem).length := ⟨rfl, by decide⟩

/-- Claim C9 (corrected): the single-file endpoint returns the item's
winning bytes under the upload's original filename; the zip endpoint builds
an archive with one entry per item with a NON-EMPTY payload, named by the
items' original filenames in upload order, each holding that item's winning
bytes — so the entry count equals N exactly when every payload is
non-empty, and is smaller when empty-payload items are skipped. -/
theorem c9_amended :
    (∀ (r : ToolRun) (f : UploadItem),
      validExt f.filename = true → f.bytes.isEmpty = false →
      compress_file r f = .ok (f.filename, winningBytes f r)) ∧
    (∀ (oracle : Nat → ToolRun) (files : List UploadItem),
      files ≠ [] → files.length ≤ 10 →
      (∀ f ∈ files, validExt f.filename = true) →
      ∃ pr : List (List Char × List Nat) × List ItemStats,
        (compress_zip oracle files).2 = .ok pr ∧
        pr.1 = ((files.enumFrom 0).filter (fun p => !p.2.bytes.isEmpty)).map
          (fun p => (p.2.filename, winningBytes p.2 (oracle p.1))) ∧
        pr.1.map Prod.fst =
          (files.filter (fun f => !f.bytes.isEmpty)).map UploadItem.filename) ∧
    (∀ (oracle : Nat → ToolRun) (files : List UploadItem),
      files ≠ [] → files.length ≤ 10 →
      (∀ f ∈ files, validExt f.filename = true ∧ f.bytes.isEmpty = false) →
      ∃ pr : List (List Char × List Nat) × List ItemStats,
        (compress_zip oracle files).2 = .ok pr ∧
        pr.1.length = files.length) := by
  refine ⟨?_, ?_, ?_⟩
  · intro r f h1 h2
    simp [compress_file, h1, h2]
  · intro oracle files hne hlen h
    have hne' : files.isEmpty = false := by
      cases files with
      | nil => exact absurd rfl hne
      | cons a l => rfl
    have hlen' : ¬ 10 < files.length := by omega
    refine ⟨(((files.enumFrom 0).filter (fun p => !p.2.bytes.isEmpty)).map
          (fun p => (p.2.filename, winningBytes p.2 (oracle p.1))),
        ((files.enumFrom 0).filter (fun p => !p.2.bytes.isEmpty)).map
          (fun p => processItem p.2 (oracle p.1))), ?_, rfl, ?_⟩
    · simp [compress_zip, hne', hlen', zipLoop_eq oracle files 0 h]
    · rw [List.map_map]
      have : (Prod.fst ∘ fun p : Nat × UploadItem =>
          (p.2.filename, winningBytes p.2 (oracle p.1))) =
          (UploadItem.filename ∘ Prod.snd) := by
        funext p
        rfl
      rw [this, ← List.map_map,
        map_snd_filter_enumFrom (fun f => !f.bytes.isEmpty) files 0]
  · intro oracle files hne hlen h
    have hne' : files.isEmpty = false := by
      cases files with
      | nil => exact absurd rfl hne
      | cons a l => rfl
    have hlen' : ¬ 10 < files.length := by omega
    have hx : ∀ f ∈ files, validExt f.filename = true := fun f hf => (h f hf).1
    refine ⟨(((files.enumFrom 0).filter (fun p => !p.2.bytes.isEmpty)).map
          (fun p => (p.2.filename, winningBytes p.2 (oracle p.1))),
        ((files.enumFrom 0).filter (fun p => !p.2.bytes.isEmpty)).map
          (fun p => processItem p.2 (oracle p.1))), ?_, ?_⟩
    · simp [compress_zip, hne', hlen', zipLoop_eq oracle files 0 hx]
    · rw [List.length_map,
        ← List.length_map _ Prod.snd,
        map_snd_filter_enumFrom (fun f => !f.bytes.isEmpty) files 0,
        List.filter_eq_self.mpr]
      intro f hf
      rw [(h f hf).2]
      rfl

/-- Witness for `c9_amended` at a concrete single file, a zip batch with an
empty item (skipped), and an all-non-empty zip batch. -/
theorem c9_amended_witness :
    compress_file ⟨true, false, []⟩ ⟨['h', '.', 'p', 'n', 'g'], [1]⟩ =
      .ok ((⟨['h', '.', 'p', 'n', 'g'], [1]⟩ : UploadItem).filename,
        winningBytes ⟨['h', '.', 'p', 'n', 'g'], [1]⟩ ⟨true, false, []⟩) ∧
    (∃ pr : List (List Char × List Nat) × List ItemStats,
      (compress_zip (fun _ => ⟨true, false, []⟩)
          [⟨['h', '.', 'p', 'n', 'g'], [1]⟩,
            ⟨['i', '.', 'p', 'n', 'g'], []⟩]).2 = .ok pr ∧
      pr.1 = ((([⟨['h', '.', 'p', 'n', 'g'], [1]⟩,
            ⟨['i', '.', 'p', 'n', 'g'], []⟩] :
          List UploadItem).enumFrom 0).filter
            (fun p => !p.2.bytes.isEmpty)).map
          (fun p => (p.2.filename,
            winningBytes p.2 ((fun _ => (⟨true, false, []⟩ : ToolRun)) p.1))) ∧
      pr.1.map Prod.fst =
        (([⟨['h', '.', 'p', 'n', 'g'], [1]⟩,
            ⟨['i', '.', 'p', 'n', 'g'], []⟩] : List UploadItem).filter
            (fun f => !f.bytes.isEmpty)).map UploadItem.filename) ∧
    (∃ pr : List (List Char × List Nat) × List ItemStats,
      (compress_zip (fun _ => ⟨true, false, []⟩)
          [⟨['h', '.', 'p', 'n', 'g'], [1]⟩,
            ⟨['j', '.', 'p', 'n', 'g'], [2]⟩]).2 = .ok pr ∧
      pr.1.length =
        ([⟨['h', '.', 'p', 'n', 'g'], [1]⟩,
            (⟨['j', '.', 'p', 'n', 'g'], [2]⟩ : UploadItem)] :
          List UploadItem).length) :=
  ⟨c9_amended.1 ⟨true, false, []⟩ ⟨['h', '.', 'p', 'n', 'g'], [1]⟩
      (by decide) (by decide),
    c9_amended.2.1 (fun _ => ⟨true, false, []⟩)
      [⟨['h', '.', 'p', 'n', 'g'], [1]⟩, ⟨['i', '.', 'p', 'n', 'g'], []⟩]
      (by decide) (by decide) (by decide),
    c9_amended.2.2 (fun _ => ⟨true, false, []⟩)
      [⟨['h', '.', 'p', 'n', 'g'], [1]⟩, ⟨['j', '.', 'p', 'n', 'g'], [2]⟩]
      (by decide) (by decide) (by decide)⟩

end ComPNG
